import Mathlib

/-!
# Verification of the AWS_POC service (s3_manager.py, vault_client.py, main.py)

A shallow embedding of the three Python modules.  Provider (boto3 / hvac)
calls are modelled by oracles: a record of responses the provider would give,
so that each wrapper function becomes a pure Lean function from the oracle to
its result together with the trace of provider calls it issues.
-/

namespace AwsPoc

/-! ## Common provider-exception model

`botocore.exceptions.ClientError` carries a response dict; the code reads
`e.response.get("Error", {}).get("Code")` and `.get("Message")`, both of which
may be `None`; we model them as `Option String`. -/

/-- A boto3 `ClientError`: the `Error.Code` and `Error.Message` fields of its
response, each possibly absent (`.get` returns `None`). -/
structure ClientError where
  code : Option String
  message : Option String
deriving DecidableEq, Repr

/-- An exception raised by a provider call: either a `ClientError` or any
other Python exception (carrying its string rendering). -/
inductive ProviderExc where
  | client (e : ClientError)
  | exc (msg : String)
deriving DecidableEq, Repr

/-- Python's `str(x)` on the optional Code/Message fields: `None` prints as
`"None"` inside an f-string. -/
def optStr : Option String → String
  | none => "None"
  | some s => s

/-- Python truthiness of an optional string: `None` and `""` are falsy. -/
def truthyOpt : Option String → Bool
  | none => false
  | some s => s != ""

/-- A FastAPI `HTTPException`: status code and detail string. -/
structure HTTPException where
  status_code : Nat
  detail : String
deriving DecidableEq, Repr

/-- An exception observable by a caller of `delete_bucket`: either a provider
exception propagated as-is, or an `HTTPException` constructed by the code. -/
inductive PyExc where
  | provider (e : ProviderExc)
  | http (h : HTTPException)
deriving DecidableEq, Repr

namespace S3Manager

/-- An entry of a `delete_objects` batch: `{'Key': k}` or
`{'Key': k, 'VersionId': v}`. -/
structure ObjectIdent where
  key : String
  versionId : Option String
deriving DecidableEq, Repr

/-- One S3 client call issued by the manager (the calls `empty_bucket` and
`delete_bucket` can make). -/
inductive S3Call where
  | listObjectsV2 (bucket : String)
  | deleteObjects (bucket : String) (objects : List ObjectIdent)
  | listObjectVersions (bucket : String)
  | deleteBucket (bucket : String)
deriving DecidableEq, Repr

/-- Response of `list_objects_v2`: the `Contents` key is present
(`some keys`) or absent (`none`). -/
structure ListObjectsResp where
  contents : Option (List String)
deriving DecidableEq, Repr

/-- Response of `list_object_versions`: the `Versions` and `DeleteMarkers`
keys, each present (a list of `(Key, VersionId)` pairs) or absent. -/
structure ListVersionsResp where
  versions : Option (List (String × String))
  deleteMarkers : Option (List (String × String))
deriving DecidableEq, Repr

/-- Oracle for the S3 client: the outcome each provider call would have.
`deleteObjects` is keyed by the batch passed to it. -/
structure S3Provider where
  listObjects : Except ProviderExc ListObjectsResp
  listVersions : Except ProviderExc ListVersionsResp
  deleteObjects : List ObjectIdent → Except ProviderExc Unit
  deleteBucketCall : Except ProviderExc Unit

/-- The `if 'Contents' in objects:` block of `empty_bucket`: when `Contents`
is present, batch-delete exactly those keys. `t` is the trace so far; an
exception carries the trace up to and including the failing call. -/
def contentsStep (bucket : String) (p : S3Provider) (objects : ListObjectsResp)
    (t : List S3Call) : Except (ProviderExc × List S3Call) (List S3Call) :=
  match objects.contents with
  | none => .ok t
  | some contents =>
    let delete_keys := contents.map (fun k => ObjectIdent.mk k none)
    let t2 := t ++ [S3Call.deleteObjects bucket delete_keys]
    match p.deleteObjects delete_keys with
    | .error e => .error (e, t2)
    | .ok _ => .ok t2

/-- The `if 'Versions' in versions:` block of `empty_bucket`: when `Versions`
is present, batch-delete exactly those `(key, version_id)` pairs. -/
def versionsStep (bucket : String) (p : S3Provider) (versions : ListVersionsResp)
    (t : List S3Call) : Except (ProviderExc × List S3Call) (List S3Call) :=
  match versions.versions with
  | none => .ok t
  | some vs =>
    let delete_versions := vs.map (fun v => ObjectIdent.mk v.1 (some v.2))
    let t2 := t ++ [S3Call.deleteObjects bucket delete_versions]
    match p.deleteObjects delete_versions with
    | .error e => .error (e, t2)
    | .ok _ => .ok t2

/-- The `if 'DeleteMarkers' in versions:` block of `empty_bucket`: when
`DeleteMarkers` is present, batch-delete exactly those pairs. -/
def markersStep (bucket : String) (p : S3Provider) (versions : ListVersionsResp)
    (t : List S3Call) : Except (ProviderExc × List S3Call) (List S3Call) :=
  match versions.deleteMarkers with
  | none => .ok t
  | some dms =>
    let delete_markers := dms.map (fun v => ObjectIdent.mk v.1 (some v.2))
    let t2 := t ++ [S3Call.deleteObjects bucket delete_markers]
    match p.deleteObjects delete_markers with
    | .error e => .error (e, t2)
    | .ok _ => .ok t2

/-- The body of `S3Manager.empty_bucket`, accumulating the trace of issued
calls.  Mirrors the source: list objects, batch-delete `Contents` if present,
list versions, batch-delete `Versions` if present, batch-delete
`DeleteMarkers` if present. -/
def emptyAux (bucket : String) (p : S3Provider) :
    Except (ProviderExc × List S3Call) (List S3Call) :=
  let t1 := [S3Call.listObjectsV2 bucket]
  match p.listObjects with
  | .error e => .error (e, t1)
  | .ok objects =>
    match contentsStep bucket p objects t1 with
    | .error x => .error x
    | .ok t2 =>
      let t3 := t2 ++ [S3Call.listObjectVersions bucket]
      match p.listVersions with
      | .error e => .error (e, t3)
      | .ok versions =>
        match versionsStep bucket p versions t3 with
        | .error x => .error x
        | .ok t4 => markersStep bucket p versions t4

/-- The trace carried by a step result, whether it succeeded or failed. -/
def traceOf : Except (ProviderExc × List S3Call) (List S3Call) → List S3Call
  | .error (_, t) => t
  | .ok t => t

/-- `S3Manager.empty_bucket`: result (an exception is re-raised unmodified —
both `except` clauses end in `raise e`) together with the trace of provider
calls issued. -/
def empty_bucket (bucket : String) (p : S3Provider) :
    Except ProviderExc Unit × List S3Call :=
  match emptyAux bucket p with
  | .error (e, t) => (.error e, t)
  | .ok t => (.ok (), t)

/-- The `except` clauses of `S3Manager.delete_bucket`: map a caught exception
to the `HTTPException` the code raises. -/
def mapDeleteError (bucket : String) : ProviderExc → HTTPException
  | .client ce =>
    if ce.code == some "NoSuchBucket" then
      ⟨404, "Bucket '" ++ bucket ++ "' not found."⟩
    else if ce.code == some "AccessDenied" then
      ⟨403, "Access denied to delete bucket '" ++ bucket ++ "'. Check AWS permissions."⟩
    else if ce.code == some "BucketNotEmpty" then
      ⟨409, "Bucket '" ++ bucket ++ "' is not empty after emptying attempt. Manual verification needed."⟩
    else
      ⟨500, "AWS ClientError during deletion: Code=" ++ optStr ce.code ++
        ", Message=" ++ optStr ce.message⟩
  | .exc msg => ⟨500, "An unexpected error occurred: " ++ msg⟩

/-- `S3Manager.delete_bucket`: runs `empty_bucket` then the provider
`delete_bucket` call, all inside one `try`; any `ClientError` (from either
phase) or other exception is caught and re-raised as an `HTTPException` via
`mapDeleteError`.  Returns the result and the trace of provider calls. -/
def delete_bucket (bucket : String) (p : S3Provider) :
    Except PyExc Unit × List S3Call :=
  match empty_bucket bucket p with
  | (.error e, t) => (.error (.http (mapDeleteError bucket e)), t)
  | (.ok _, t) =>
    let t2 := t ++ [S3Call.deleteBucket bucket]
    match p.deleteBucketCall with
    | .ok _ => (.ok (), t2)
    | .error e => (.error (.http (mapDeleteError bucket e)), t2)

/-- Sizes of the `delete_objects` batches in a trace, in order. -/
def batchDeleteSizes (t : List S3Call) : List Nat :=
  t.filterMap fun c =>
    match c with
    | .deleteObjects _ objs => some objs.length
    | _ => none

/-- Honest provider for a bucket holding the given live objects, versions and
delete markers: S3 omits `Contents` / `Versions` / `DeleteMarkers` when the
corresponding collection is empty, and every delete succeeds. -/
def bucketProvider (objs : List String) (vers dms : List (String × String)) :
    S3Provider where
  listObjects := .ok ⟨if objs.isEmpty then none else some objs⟩
  listVersions := .ok ⟨if vers.isEmpty then none else some vers,
                       if dms.isEmpty then none else some dms⟩
  deleteObjects := fun _ => .ok ()
  deleteBucketCall := .ok ()

/-- Number of provider bucket-deletion calls in a trace. -/
def deleteBucketCallCount (t : List S3Call) : Nat :=
  (t.filter fun c =>
    match c with
    | .deleteBucket _ => true
    | _ => false).length

/-- A provider on an empty, unversioned bucket whose final `delete_bucket`
call has outcome `e`. -/
def emptyOkProvider (e : Except ProviderExc Unit) : S3Provider where
  listObjects := .ok ⟨none⟩
  listVersions := .ok ⟨none, none⟩
  deleteObjects := fun _ => .ok ()
  deleteBucketCall := e

/-- A provider whose very first call (`list_objects_v2`) raises a
`ClientError` with code `ExpiredToken`. -/
def listErrProvider : S3Provider where
  listObjects := .error (.client ⟨some "ExpiredToken", some "The provided token has expired."⟩)
  listVersions := .ok ⟨none, none⟩
  deleteObjects := fun _ => .ok ()
  deleteBucketCall := .ok ()

/-- A provider whose `list_objects_v2` call raises a non-`ClientError`
exception. -/
def witErrProvider : S3Provider where
  listObjects := .error (.exc "boom")
  listVersions := .ok ⟨none, none⟩
  deleteObjects := fun _ => .ok ()
  deleteBucketCall := .ok ()

/-! ### create_bucket -/

/-- The provider `create_bucket` call: bucket name, plus the
`CreateBucketConfiguration.LocationConstraint` if one was sent. -/
structure CreateCall where
  bucket : String
  locationConstraint : Option String
deriving DecidableEq, Repr

/-- The call `S3Manager.create_bucket` issues: in region `us-east-1` no
`CreateBucketConfiguration` is passed; in any other region the
`LocationConstraint` is the configured region. -/
def createCallOf (region bucket : String) : CreateCall :=
  if region == "us-east-1" then ⟨bucket, none⟩
  else ⟨bucket, some region⟩

/-- Interpretation of the provider outcome by `S3Manager.create_bucket`'s
`try`/`except` chain: success returns `true`; `BucketAlreadyOwnedByYou`
returns `true`; `BucketAlreadyExists`, `AccessDenied`, `InvalidAccessKeyId`,
`SignatureDoesNotMatch`, any other `ClientError`, and any other exception all
return `false`. -/
def create_bucket_result : Except ProviderExc Unit → Bool
  | .ok _ => true
  | .error (.client e) =>
    if e.code == some "BucketAlreadyOwnedByYou" then true
    else if e.code == some "BucketAlreadyExists" then false
    else if e.code == some "AccessDenied" then false
    else if e.code == some "InvalidAccessKeyId" || e.code == some "SignatureDoesNotMatch" then false
    else false
  | .error (.exc _) => false

/-- `S3Manager.create_bucket` against an oracle for the provider create
call. -/
def create_bucket (region bucket : String)
    (provider : CreateCall → Except ProviderExc Unit) : Bool :=
  create_bucket_result (provider (createCallOf region bucket))

/-- Provider-side bucket state: which names exist owned by the caller and
which exist owned by another account. -/
structure S3World where
  ownedByYou : List String
  ownedByOther : List String
deriving DecidableEq, Repr

/-- S3 semantics of a create call against a world: a name owned by another
account fails with `BucketAlreadyExists`; a name the caller already owns
fails with `BucketAlreadyOwnedByYou`; otherwise the bucket is created. -/
def createProvider (w : S3World) (c : CreateCall) :
    Except ProviderExc Unit × S3World :=
  if w.ownedByOther.contains c.bucket then
    (.error (.client ⟨some "BucketAlreadyExists", some "The requested bucket name is not available."⟩), w)
  else if w.ownedByYou.contains c.bucket then
    (.error (.client ⟨some "BucketAlreadyOwnedByYou", some "Your previous request to create the named bucket succeeded."⟩), w)
  else
    (.ok (), { w with ownedByYou := c.bucket :: w.ownedByYou })

/-- `create_bucket` run against the stateful provider model: the boolean
result and the world afterwards. -/
def create_bucket_st (region bucket : String) (w : S3World) : Bool × S3World :=
  let (r, w2) := createProvider w (createCallOf region bucket)
  (create_bucket_result r, w2)

/-! ### Session construction (`_initialize_s3_client`) -/

/-- The keyword arguments passed to `boto3.client('s3', **kwargs)`. -/
structure S3ClientKwargs where
  aws_access_key_id : String
  aws_secret_access_key : String
  region_name : String
  aws_session_token : Option String
deriving DecidableEq, Repr

/-- `S3Manager._initialize_s3_client`: builds the kwargs dict and adds
`aws_session_token` only when `if session_token:` is truthy. -/
def initialize_s3_client (access_key secret_key region_name : String)
    (session_token : Option String) : S3ClientKwargs :=
  let base : S3ClientKwargs :=
    { aws_access_key_id := access_key
      aws_secret_access_key := secret_key
      region_name := region_name
      aws_session_token := none }
  if truthyOpt session_token then
    { base with aws_session_token := session_token }
  else
    base

end S3Manager

namespace VaultClient

/-! ## vault_client.py

`get_aws_credentials` makes a single backend call
(`secrets.kv.v2.read_secret_version`), validates the response, and raises
`ValueError`s whose messages classify the failure.  Every failure the caller
sees is a `ValueError`; we model the raised error by its message string. -/

/-- Lowercase a string character-wise (`str.lower()`; all messages involved
are ASCII). -/
def pyLower (s : String) : String := ⟨s.data.map Char.toLower⟩

/-- `pat` occurs as a contiguous substring of `s` (Python's `pat in s`). -/
def isSubAux (pat : List Char) : List Char → Bool
  | [] => pat.isEmpty
  | c :: cs => pat.isPrefixOf (c :: cs) || isSubAux pat cs

/-- Python `pat in s` on strings. -/
def containsSub (s pat : String) : Bool := isSubAux pat.data s.data

/-- The nested secret data: the fields `get_aws_credentials` inspects, each
possibly absent. -/
structure CredMap where
  access_key : Option String
  secret_access_key : Option String
deriving DecidableEq, Repr

/-- Outcome of the single `read_secret_version` backend call:
`ok (some creds)` when the response is truthy with nested `data.data`,
`ok none` when the structure check fails, `vaultErr msg` for an
`hvac.exceptions.VaultError` with `str(e) = msg`, `otherErr msg` for any
other exception. -/
inductive ReadResult where
  | ok (resp : Option CredMap)
  | vaultErr (msg : String)
  | otherErr (msg : String)
deriving DecidableEq, Repr

/-- A backend call made by the client. -/
inductive VaultCall where
  | readSecretVersion (path mount : String)
deriving DecidableEq, Repr

/-- Message of the inner `ValueError` for incomplete credentials. -/
def incompleteMsg : String := "Incomplete AWS credentials retrieved from Vault."

/-- Message of the inner `ValueError` when the response structure check
fails. -/
def noDataMsg (mount path : String) : String :=
  "Failed to retrieve data from Vault path: " ++ mount ++ "/data/" ++ path

/-- The outer `except Exception` handler: any non-`VaultError` exception
raised in the `try` block (including the two inner `ValueError`s) is caught
and re-raised as `ValueError` with this message. -/
def internalWrap (m : String) : String :=
  "Internal error while fetching from Vault: " ++ m

/-- The error a caller observes when the secret is present but its
`access_key` or `secret_access_key` field is missing or empty: the inner
incomplete-credentials `ValueError`, wrapped once by the generic
`except Exception` handler of the same `try` statement. -/
def IncompleteCredentialsError : String := internalWrap incompleteMsg

/-- The PermissionDenied category: detail for a `VaultError` whose text
contains "forbidden" (the remediation hint is appended to the base
message). -/
def permissionDeniedDetail (mount path msg : String) : String :=
  "Vault error: " ++ msg ++
    ". Check if VAULT_SERVICE_TOKEN has 'read' capabilities on '" ++
    mount ++ "/data/" ++ path ++ "'."

/-- The ConnectionRefused category detail. -/
def connectionRefusedDetail : String :=
  "Vault connection refused. Is Vault running and accessible at the specified address?"

/-- The Unauthorized category detail. -/
def unauthorizedDetail : String :=
  "Vault authentication failed (token may be expired or invalid)."

/-- The PathNotFound category detail. -/
def pathNotFoundDetail (mount path : String) : String :=
  "Vault path '" ++ mount ++ "/data/" ++ path ++
    "' not found. Check the path and mount point."

/-- The GenericBackendError category detail. -/
def genericBackendDetail (msg : String) : String := "Vault error: " ++ msg

/-- The `except hvac.exceptions.VaultError` handler: classify the error by
substring inspection of its lowercased text and produce the `ValueError`
message that is re-raised. -/
def classifyVaultError (mount path msg : String) : String :=
  let low := pyLower msg
  if containsSub low "forbidden" then permissionDeniedDetail mount path msg
  else if containsSub low "connection refused" then connectionRefusedDetail
  else if containsSub low "unauthorized" then unauthorizedDetail
  else if containsSub low "not found" && containsSub low "404" then
    pathNotFoundDetail mount path
  else genericBackendDetail msg

/-- `VaultClient.get_aws_credentials`: result (the credentials, or the
message of the raised `ValueError`) together with the trace of backend
calls — always exactly the one `read_secret_version` call. -/
def get_aws_credentials (mount path : String) (r : ReadResult) :
    Except String CredMap × List VaultCall :=
  let result : Except String CredMap :=
    match r with
    | .ok (some credentials) =>
      if !(truthyOpt credentials.access_key) ||
         !(truthyOpt credentials.secret_access_key) then
        .error (internalWrap incompleteMsg)
      else
        .ok credentials
    | .ok none => .error (internalWrap (noDataMsg mount path))
    | .vaultErr msg => .error (classifyVaultError mount path msg)
    | .otherErr msg => .error (internalWrap msg)
  (result, [VaultCall.readSecretVersion path mount])

end VaultClient

namespace MainApp

/-! ## main.py — `generate_unique_bucket_name_api`

The endpoint formats `datetime.now()` with `'%Y%m%d%H%M%S%f'` (4+2+2+2+2+2+6
digits), drops its last three characters (`[:-3]`), and builds
`f"my-app-s3-kv2-{timestamp}-{random_str}".lower().replace('_', '-')` where
`random_str` is six characters drawn from lowercase letters and digits. -/

/-- The fields of a `datetime.datetime` value that `strftime` reads. -/
structure PyDateTime where
  year : Nat
  month : Nat
  day : Nat
  hour : Nat
  minute : Nat
  second : Nat
  microsecond : Nat
deriving DecidableEq, Repr

/-- The last decimal digit of `n`, as a character. -/
def decDigit (n : Nat) : Char :=
  match n % 10 with
  | 0 => '0'
  | 1 => '1'
  | 2 => '2'
  | 3 => '3'
  | 4 => '4'
  | 5 => '5'
  | 6 => '6'
  | 7 => '7'
  | 8 => '8'
  | _ => '9'

/-- Decimal digits of `n` (most significant first), prepended to `acc`;
`fuel` bounds the recursion depth (any `fuel ≥` the digit count of `n` gives
the full rendering). -/
def toDecimalFuel : Nat → Nat → List Char → List Char
  | 0, _, acc => acc
  | fuel + 1, n, acc =>
    if n = 0 then acc else toDecimalFuel fuel (n / 10) (decDigit n :: acc)

/-- Decimal rendering of a natural number. -/
def toDecimal (n : Nat) : List Char :=
  if n = 0 then ['0'] else toDecimalFuel n n []

/-- Zero-padded decimal rendering to (at least) width `w`, as `strftime`'s
numeric directives produce. -/
def zpad (w n : Nat) : List Char :=
  List.replicate (w - (toDecimal n).length) '0' ++ toDecimal n

/-- `d.strftime('%Y%m%d%H%M%S%f')`: year (4), month (2), day (2), hour (2),
minute (2), second (2), microsecond (6), zero-padded, concatenated. -/
def strftimeFull (d : PyDateTime) : List Char :=
  zpad 4 d.year ++ zpad 2 d.month ++ zpad 2 d.day ++ zpad 2 d.hour ++
    zpad 2 d.minute ++ zpad 2 d.second ++ zpad 6 d.microsecond

/-- Python slice `s[:-3]`: drop the last three characters. -/
def sliceToMinus3 (cs : List Char) : List Char := cs.take (cs.length - 3)

/-- The `timestamp` local variable: `strftime('%Y%m%d%H%M%S%f')[:-3]`. -/
def timestampOf (d : PyDateTime) : List Char := sliceToMinus3 (strftimeFull d)

/-- `str.replace('_', '-')` character-wise. -/
def pyReplaceUnderscore (cs : List Char) : List Char :=
  cs.map fun c => if c = '_' then '-' else c

/-- The random-suffix alphabet of the endpoint:
`'abcdefghijklmnopqrstuvwxyz0123456789'`. -/
def suffixAlphabet : List Char := "abcdefghijklmnopqrstuvwxyz0123456789".data

/-- `generate_unique_bucket_name_api`'s suggested name for a given clock
reading and random suffix. -/
def generate_unique_bucket_name (d : PyDateTime) (random_str : String) : String :=
  let timestamp : List Char := timestampOf d
  let suggested : List Char :=
    "my-app-s3-kv2-".data ++ timestamp ++ ['-'] ++ random_str.data
  ⟨pyReplaceUnderscore (suggested.map Char.toLower)⟩

/-- The ten decimal digit characters. -/
def digitChars : List Char := "0123456789".data

/-- `cs` consists only of decimal digits. -/
def allDigits (cs : List Char) : Bool := cs.all Char.isDigit

/-- `cs` consists only of lowercase letters and digits. -/
def allLowerAlnum (cs : List Char) : Bool :=
  cs.all fun c => (('a' ≤ c && c ≤ 'z') || c.isDigit)

/-- The per-character effect of `.lower().replace('_', '-')`. -/
def lowerReplaceChar (c : Char) : Char :=
  if Char.toLower c = '_' then '-' else Char.toLower c

/-- The name matches `my-app-s3-kv2-<tsLen-digit-timestamp>-<6-char-alnum>`:
the literal prefix, exactly `tsLen` digits, a hyphen, and six lowercase
alphanumeric characters. -/
def matchesPattern (tsLen : Nat) (s : String) : Bool :=
  let cs := s.data
  cs.take 14 == "my-app-s3-kv2-".data &&
    cs.length == 14 + tsLen + 1 + 6 &&
    allDigits ((cs.drop 14).take tsLen) &&
    (cs.drop (14 + tsLen)).take 1 == ['-'] &&
    allLowerAlnum (cs.drop (14 + tsLen + 1))

/-- No uppercase characters and no underscores anywhere in the name. -/
def noUpperNoUnderscore (s : String) : Bool :=
  s.data.all fun c => !c.isUpper && c ≠ '_'

end MainApp

/-! ## Theorems -/

namespace S3Manager

/-- The bucket field of the create call is always the requested name. -/
theorem createCallOf_bucket (region bucket : String) :
    (createCallOf region bucket).bucket = bucket := by
  unfold createCallOf
  split <;> rfl

/-- C5: `create_bucket` with the configured region equal to `us-east-1`
issues the provider create-call without a location constraint, and with any
other configured region it issues the call with the location constraint equal
to the configured region.  (`create_bucket region bucket p` applies `p`
exactly to `createCallOf region bucket`, which is the one call issued.) -/
theorem create_bucket_location_constraint (region bucket : String)
    (provider : CreateCall → Except ProviderExc Unit) :
    create_bucket region bucket provider =
      create_bucket_result (provider (createCallOf region bucket)) ∧
    (region = "us-east-1" →
      createCallOf region bucket = ⟨bucket, none⟩) ∧
    (region ≠ "us-east-1" →
      createCallOf region bucket = ⟨bucket, some region⟩) := by
  refine ⟨rfl, fun h => ?_, fun h => ?_⟩
  · simp [createCallOf, h]
  · simp [createCallOf, h]

/-- Witness for C5 at concrete regions. -/
theorem create_bucket_location_constraint_witness :
    createCallOf "us-east-1" "demo" = ⟨"demo", none⟩ ∧
    createCallOf "eu-west-1" "demo" = ⟨"demo", some "eu-west-1"⟩ :=
  ⟨(create_bucket_location_constraint "us-east-1" "demo"
      (fun _ => .ok ())).2.1 rfl,
   (create_bucket_location_constraint "eu-west-1" "demo"
      (fun _ => .ok ())).2.2 (by decide)⟩

/-- C6: when the provider reports `BucketAlreadyOwnedByYou`, `create_bucket`
returns `true`; consequently, against the stateful provider model, for any
bucket name not owned by another account, two successive `create_bucket`
calls with the same name both return `true`. -/
theorem create_bucket_idempotent (region bucket : String) (m : Option String)
    (w : S3World) (h : bucket ∉ w.ownedByOther) :
    create_bucket region bucket
      (fun _ => .error (.client ⟨some "BucketAlreadyOwnedByYou", m⟩)) = true ∧
    (create_bucket_st region bucket w).1 = true ∧
    (create_bucket_st region bucket (create_bucket_st region bucket w).2).1 = true := by
  refine ⟨rfl, ?_, ?_⟩
  · simp only [create_bucket_st, createProvider, createCallOf_bucket]
    by_cases h2 : bucket ∈ w.ownedByYou
    · simp [h, h2, create_bucket_result]
    · simp [h, h2, create_bucket_result]
  · simp only [create_bucket_st, createProvider, createCallOf_bucket]
    by_cases h2 : bucket ∈ w.ownedByYou
    · simp [h, h2, create_bucket_result]
    · simp [h, h2, create_bucket_result]

/-- Witness for C6 on an initially empty world. -/
theorem create_bucket_idempotent_witness :
    create_bucket "us-east-1" "demo"
      (fun _ => .error (.client ⟨some "BucketAlreadyOwnedByYou", none⟩)) = true ∧
    (create_bucket_st "us-east-1" "demo" ⟨[], []⟩).1 = true ∧
    (create_bucket_st "us-east-1" "demo"
      (create_bucket_st "us-east-1" "demo" ⟨[], []⟩).2).1 = true :=
  create_bucket_idempotent "us-east-1" "demo" none ⟨[], []⟩ (by simp)

/-- Every `ClientError` whose code is not `BucketAlreadyOwnedByYou` makes
`create_bucket` return `false` (whichever `elif` branch it falls into). -/
theorem create_bucket_result_false (e : ClientError)
    (hc : e.code ≠ some "BucketAlreadyOwnedByYou") :
    create_bucket_result (.error (.client e)) = false := by
  simp only [create_bucket_result]
  rw [if_neg (by simpa using hc)]
  split
  · rfl
  · split
    · rfl
    · split <;> rfl

/-- C9: `create_bucket` always returns a boolean (it is a total function of
the provider outcome: both `except` chains end in `return False`), and the
result is `true` exactly when the create call succeeded or failed with
`BucketAlreadyOwnedByYou`; every other error outcome yields `false`. -/
theorem create_bucket_total (region bucket : String)
    (provider : CreateCall → Except ProviderExc Unit) :
    create_bucket region bucket provider = true ↔
      provider (createCallOf region bucket) = .ok () ∨
      ∃ m : Option String,
        provider (createCallOf region bucket) =
          .error (.client ⟨some "BucketAlreadyOwnedByYou", m⟩) := by
  have hres : ∀ r : Except ProviderExc Unit,
      create_bucket_result r = true ↔
        r = .ok () ∨
        ∃ m : Option String,
          r = .error (.client ⟨some "BucketAlreadyOwnedByYou", m⟩) := by
    intro r
    match r with
    | .ok () => simp [create_bucket_result]
    | .error (.client ⟨code, message⟩) =>
      by_cases hc : code = some "BucketAlreadyOwnedByYou"
      · subst hc
        simp [create_bucket_result]
      · rw [create_bucket_result_false ⟨code, message⟩ (by simpa using hc)]
        simp [hc]
    | .error (.exc msg) => simp [create_bucket_result]
  exact hres (provider (createCallOf region bucket))

/-- C10: passing an empty-string session token to
`_initialize_s3_client` yields exactly the same client kwargs as passing no
session token: `if session_token:` is falsy for both `None` and `""`, so no
`aws_session_token` key is added. -/
theorem empty_session_token_eq (access_key secret_key region_name : String) :
    initialize_s3_client access_key secret_key region_name (some "") =
      initialize_s3_client access_key secret_key region_name none ∧
    (initialize_s3_client access_key secret_key region_name
      (some "")).aws_session_token = none := by
  constructor <;> rfl

/-- C3: when the emptying phase succeeds and the provider bucket-deletion
call fails, `delete_bucket` raises the `HTTPException` given by
`mapDeleteError`, which maps `NoSuchBucket` to 404 (NotFound), `AccessDenied`
to 403 (Forbidden), `BucketNotEmpty` to 409 (Conflict), every other
`ClientError` to 500 carrying the provider's code and message, and every
non-`ClientError` exception to 500. -/
theorem delete_error_mapping (bucket : String) (e : ProviderExc)
    (ce : ClientError) (msg : String) :
    (delete_bucket bucket (emptyOkProvider (.error e))).1 =
      .error (.http (mapDeleteError bucket e)) ∧
    (ce.code = some "NoSuchBucket" →
      mapDeleteError bucket (.client ce) =
        ⟨404, "Bucket '" ++ bucket ++ "' not found."⟩) ∧
    (ce.code = some "AccessDenied" →
      mapDeleteError bucket (.client ce) =
        ⟨403, "Access denied to delete bucket '" ++ bucket ++ "'. Check AWS permissions."⟩) ∧
    (ce.code = some "BucketNotEmpty" →
      mapDeleteError bucket (.client ce) =
        ⟨409, "Bucket '" ++ bucket ++ "' is not empty after emptying attempt. Manual verification needed."⟩) ∧
    (ce.code ≠ some "NoSuchBucket" → ce.code ≠ some "AccessDenied" →
      ce.code ≠ some "BucketNotEmpty" →
      mapDeleteError bucket (.client ce) =
        ⟨500, "AWS ClientError during deletion: Code=" ++ optStr ce.code ++
          ", Message=" ++ optStr ce.message⟩) ∧
    mapDeleteError bucket (.exc msg) =
      ⟨500, "An unexpected error occurred: " ++ msg⟩ := by
  refine ⟨rfl, fun h1 => ?_, fun h2 => ?_, fun h3 => ?_, fun h1 h2 h3 => ?_, rfl⟩
  · simp [mapDeleteError, h1]
  · simp [mapDeleteError, h2]
  · simp [mapDeleteError, h3]
  · simp [mapDeleteError, h1, h2, h3]

/-- Witness for C3 at concrete error values. -/
theorem delete_error_mapping_witness :
    (delete_bucket "demo" (emptyOkProvider
        (.error (.client ⟨some "NoSuchBucket", some "gone"⟩)))).1 =
      .error (.http (mapDeleteError "demo" (.client ⟨some "NoSuchBucket", some "gone"⟩))) ∧
    mapDeleteError "demo" (.client ⟨some "NoSuchBucket", some "gone"⟩) =
      ⟨404, "Bucket 'demo' not found."⟩ := by
  have h := delete_error_mapping "demo"
    (.client ⟨some "NoSuchBucket", some "gone"⟩)
    ⟨some "NoSuchBucket", some "gone"⟩ "oops"
  exact ⟨h.1, h.2.1 rfl⟩

/-- C2 counterexample: a provider error raised while emptying (here an
`ExpiredToken` `ClientError` from `list_objects_v2`) is re-raised unmodified
by `empty_bucket`, but `delete_bucket` does not pass it through to its
caller: its `try` block spans the emptying phase, so the error is caught and
transformed into an `HTTPException`. -/
theorem empty_error_transformed_counterexample :
    (empty_bucket "demo" listErrProvider).1 =
      .error (.client ⟨some "ExpiredToken", some "The provided token has expired."⟩) ∧
    (delete_bucket "demo" listErrProvider).1 =
      .error (.http ⟨500,
        "AWS ClientError during deletion: Code=ExpiredToken, Message=The provided token has expired."⟩) ∧
    (delete_bucket "demo" listErrProvider).1 ≠
      .error (.provider (.client ⟨some "ExpiredToken", some "The provided token has expired."⟩)) := by
  refine ⟨rfl, rfl, ?_⟩
  intro hcontra
  simp [delete_bucket, empty_bucket, emptyAux, listErrProvider, mapDeleteError] at hcontra

/-- C2 (amended): the emptying phase itself never swallows a provider
error — `empty_bucket` re-raises it unmodified — but `delete_bucket` catches
it and maps it through the same `mapDeleteError` translation used for
deletion failures. -/
theorem empty_error_mapped (bucket : String) (p : S3Provider)
    (e e' : ProviderExc) (h : (empty_bucket bucket p).1 = .error e) :
    (delete_bucket bucket p).1 = .error (.http (mapDeleteError bucket e)) ∧
    (p.listObjects = .error e' → (empty_bucket bucket p).1 = .error e') := by
  constructor
  · unfold delete_bucket
    rcases hq : empty_bucket bucket p with ⟨r, t⟩
    rw [hq] at h
    simp at h
    rw [h]
  · intro h2
    simp [empty_bucket, emptyAux, h2]

/-- Witness for C2's amended theorem, at a provider failing on the first
listing call. -/
theorem empty_error_mapped_witness :
    (delete_bucket "w" witErrProvider).1 =
      .error (.http (mapDeleteError "w" (.exc "boom"))) ∧
    (witErrProvider.listObjects = .error (.exc "boom") →
      (empty_bucket "w" witErrProvider).1 = .error (.exc "boom")) :=
  empty_error_mapped "w" witErrProvider (.exc "boom") (.exc "boom") rfl

/-- The `Contents` block never adds a bucket-deletion call to the trace. -/
theorem deleteBucket_not_in_contentsStep (bucket b2 : String) (p : S3Provider)
    (objects : ListObjectsResp) (t : List S3Call)
    (h : S3Call.deleteBucket b2 ∉ t) :
    S3Call.deleteBucket b2 ∉ traceOf (contentsStep bucket p objects t) := by
  unfold contentsStep
  split
  · exact h
  · dsimp only
    split <;> simp_all [traceOf]

/-- The `Versions` block never adds a bucket-deletion call to the trace. -/
theorem deleteBucket_not_in_versionsStep (bucket b2 : String) (p : S3Provider)
    (versions : ListVersionsResp) (t : List S3Call)
    (h : S3Call.deleteBucket b2 ∉ t) :
    S3Call.deleteBucket b2 ∉ traceOf (versionsStep bucket p versions t) := by
  unfold versionsStep
  split
  · exact h
  · dsimp only
    split <;> simp_all [traceOf]

/-- The `DeleteMarkers` block never adds a bucket-deletion call to the
trace. -/
theorem deleteBucket_not_in_markersStep (bucket b2 : String) (p : S3Provider)
    (versions : ListVersionsResp) (t : List S3Call)
    (h : S3Call.deleteBucket b2 ∉ t) :
    S3Call.deleteBucket b2 ∉ traceOf (markersStep bucket p versions t) := by
  unfold markersStep
  split
  · exact h
  · dsimp only
    split <;> simp_all [traceOf]

/-- The emptying phase never issues a provider bucket-deletion call. -/
theorem deleteBucket_not_in_empty_trace (bucket b2 : String) (p : S3Provider) :
    S3Call.deleteBucket b2 ∉ (empty_bucket bucket p).2 := by
  have htr : (empty_bucket bucket p).2 = traceOf (emptyAux bucket p) := by
    unfold empty_bucket
    rcases emptyAux bucket p with ⟨e, t⟩ | t <;> rfl
  rw [htr]
  unfold emptyAux
  rcases h0 : p.listObjects with e0 | objects
  · simp [h0, traceOf]
  · simp only [h0]
    have h1 := deleteBucket_not_in_contentsStep bucket b2 p objects
      [S3Call.listObjectsV2 bucket] (by simp)
    rcases hc : contentsStep bucket p objects [S3Call.listObjectsV2 bucket]
      with ⟨e1, te⟩ | t2
    · rw [hc] at h1
      simp only [traceOf] at h1
      simp only [hc, traceOf]
      exact h1
    · rw [hc] at h1
      simp only [traceOf] at h1
      simp only [hc]
      rcases hv : p.listVersions with e2 | versions
      · simp [hv, traceOf, h1]
      · simp only [hv]
        have h2 := deleteBucket_not_in_versionsStep bucket b2 p versions
          (t2 ++ [S3Call.listObjectVersions bucket]) (by simp [h1])
        rcases hvs : versionsStep bucket p versions
          (t2 ++ [S3Call.listObjectVersions bucket]) with ⟨e3, te3⟩ | t4
        · rw [hvs] at h2
          simp only [traceOf] at h2
          simp only [hvs, traceOf]
          exact h2
        · rw [hvs] at h2
          simp only [traceOf] at h2
          simp only [hvs]
          exact deleteBucket_not_in_markersStep bucket b2 p versions t4 h2

/-- C1: against an honest provider for a bucket with `objs` live objects,
`vers` versions and `dms` delete markers (S3 omits the corresponding response
key when a collection is empty), `delete_bucket` succeeds; its batch-delete
calls are sized exactly `objs.length`, `vers.length`, `dms.length` in that
order, each issued only when the corresponding collection is nonempty, so at
most three; and the provider bucket-deletion call is issued exactly once, as
the last call — and, for an arbitrary provider, only when the emptying phase
completed without error. -/
theorem delete_bucket_batch_plan (bucket : String) (objs : List String)
    (vers dms : List (String × String)) (p : S3Provider) :
    (delete_bucket bucket (bucketProvider objs vers dms)).1 = .ok () ∧
    batchDeleteSizes (delete_bucket bucket (bucketProvider objs vers dms)).2 =
      (if objs.isEmpty then [] else [objs.length]) ++
      (if vers.isEmpty then [] else [vers.length]) ++
      (if dms.isEmpty then [] else [dms.length]) ∧
    (batchDeleteSizes (delete_bucket bucket (bucketProvider objs vers dms)).2).length ≤ 3 ∧
    (delete_bucket bucket (bucketProvider objs vers dms)).2.getLast? =
      some (S3Call.deleteBucket bucket) ∧
    deleteBucketCallCount (delete_bucket bucket (bucketProvider objs vers dms)).2 = 1 ∧
    (S3Call.deleteBucket bucket ∈ (delete_bucket bucket p).2 →
      (empty_bucket bucket p).1 = .ok ()) := by
  refine ⟨?_, ?_, ?_, ?_, ?_, ?_⟩
  · rcases objs with _ | ⟨o, os⟩ <;> rcases vers with _ | ⟨v, vs⟩ <;>
      rcases dms with _ | ⟨m, ms⟩ <;>
      simp [delete_bucket, empty_bucket, emptyAux, contentsStep, versionsStep, markersStep, bucketProvider]
  · rcases objs with _ | ⟨o, os⟩ <;> rcases vers with _ | ⟨v, vs⟩ <;>
      rcases dms with _ | ⟨m, ms⟩ <;>
      simp [delete_bucket, empty_bucket, emptyAux, contentsStep, versionsStep, markersStep, bucketProvider, batchDeleteSizes]
  · rcases objs with _ | ⟨o, os⟩ <;> rcases vers with _ | ⟨v, vs⟩ <;>
      rcases dms with _ | ⟨m, ms⟩ <;>
      simp [delete_bucket, empty_bucket, emptyAux, contentsStep, versionsStep, markersStep, bucketProvider, batchDeleteSizes]
  · rcases objs with _ | ⟨o, os⟩ <;> rcases vers with _ | ⟨v, vs⟩ <;>
      rcases dms with _ | ⟨m, ms⟩ <;>
      simp [delete_bucket, empty_bucket, emptyAux, contentsStep, versionsStep, markersStep, bucketProvider]
  · rcases objs with _ | ⟨o, os⟩ <;> rcases vers with _ | ⟨v, vs⟩ <;>
      rcases dms with _ | ⟨m, ms⟩ <;>
      simp [delete_bucket, empty_bucket, emptyAux, contentsStep, versionsStep, markersStep, bucketProvider, deleteBucketCallCount]
  · intro hmem
    unfold delete_bucket at hmem
    rcases hq : empty_bucket bucket p with ⟨r, t⟩
    rw [hq] at hmem
    cases r with
    | error e =>
      simp at hmem
      have hni := deleteBucket_not_in_empty_trace bucket bucket p
      rw [hq] at hni
      exact absurd hmem hni
    | ok u =>
      cases u
      simp [hq]

/-- Witness for C1's gating implication at a concrete bucket. -/
theorem delete_bucket_batch_plan_witness :
    (empty_bucket "b" (bucketProvider ["a"] [] [])).1 = .ok () :=
  (delete_bucket_batch_plan "b" ["a"] [] []
    (bucketProvider ["a"] [] [])).2.2.2.2.2 (by decide)

end S3Manager

namespace VaultClient

/-- C7: every `hvac.exceptions.VaultError` raised during
`get_aws_credentials` is classified by substring inspection of its lowercased
text and re-raised as a `ValueError` whose message is one of the five
category details — PermissionDenied, ConnectionRefused, Unauthorized,
PathNotFound or GenericBackendError — each of which carries its remediation
hint (spelled out in the corresponding detail definition). -/
theorem vault_error_classification (mount path msg : String) :
    (get_aws_credentials mount path (.vaultErr msg)).1 =
      .error (classifyVaultError mount path msg) ∧
    (classifyVaultError mount path msg = permissionDeniedDetail mount path msg ∨
     classifyVaultError mount path msg = connectionRefusedDetail ∨
     classifyVaultError mount path msg = unauthorizedDetail ∨
     classifyVaultError mount path msg = pathNotFoundDetail mount path ∨
     classifyVaultError mount path msg = genericBackendDetail msg) := by
  refine ⟨rfl, ?_⟩
  unfold classifyVaultError
  dsimp only
  split
  · exact Or.inl rfl
  · split
    · exact Or.inr (Or.inl rfl)
    · split
      · exact Or.inr (Or.inr (Or.inl rfl))
      · split
        · exact Or.inr (Or.inr (Or.inr (Or.inl rfl)))
        · exact Or.inr (Or.inr (Or.inr (Or.inr rfl)))

/-- C8 counterexample: a backend response with no nested data object does not
fail with the incomplete-credentials error: it fails with the distinct
failed-to-retrieve-data `ValueError` instead. -/
theorem credentials_missing_data_counterexample :
    (get_aws_credentials "secrets" "aws/credentials" (.ok none)).1 =
      .error (internalWrap (noDataMsg "secrets" "aws/credentials")) ∧
    (get_aws_credentials "secrets" "aws/credentials" (.ok none)).1 ≠
      .error IncompleteCredentialsError := by
  refine ⟨rfl, ?_⟩
  intro hcontra
  simp [get_aws_credentials, IncompleteCredentialsError, internalWrap,
    incompleteMsg, noDataMsg] at hcontra

/-- C8 (amended): when the nested data object is present,
`get_aws_credentials` succeeds and returns the credentials exactly when both
`access_key` and `secret_access_key` are present and non-empty, and otherwise
fails with the incomplete-credentials error; a response with no nested data
object fails with the distinct failed-to-retrieve-data error; in every case
exactly one backend call (`read_secret_version`) is performed, so no further
calls follow a validation failure. -/
theorem credentials_validation (mount path : String) (credentials : CredMap) :
    (get_aws_credentials mount path (.ok (some credentials))).1 =
      (if truthyOpt credentials.access_key &&
          truthyOpt credentials.secret_access_key then
        .ok credentials
      else
        .error IncompleteCredentialsError) ∧
    (get_aws_credentials mount path (.ok none)).1 =
      .error (internalWrap (noDataMsg mount path)) ∧
    ∀ r : ReadResult,
      (get_aws_credentials mount path r).2 =
        [VaultCall.readSecretVersion path mount] := by
  refine ⟨?_, rfl, fun r => rfl⟩
  rcases Bool.eq_false_or_eq_true (truthyOpt credentials.access_key) with ha | ha <;>
    rcases Bool.eq_false_or_eq_true (truthyOpt credentials.secret_access_key)
      with hb | hb <;>
    simp [get_aws_credentials, ha, hb, IncompleteCredentialsError]

end VaultClient

namespace MainApp

/-- A rendered digit is one of the ten digit characters. -/
theorem decDigit_mem (n : Nat) : decDigit n ∈ digitChars := by
  unfold decDigit
  split <;> decide

/-- `toDecimalFuel` only ever prepends digit characters. -/
theorem toDecimalFuel_mem (fuel : Nat) : ∀ (n : Nat) (acc : List Char),
    (∀ x ∈ acc, x ∈ digitChars) →
    ∀ c ∈ toDecimalFuel fuel n acc, c ∈ digitChars := by
  induction fuel with
  | zero => intro n acc hacc c hc; exact hacc c hc
  | succ fuel ih =>
    intro n acc hacc c hc
    by_cases hn : n = 0
    · simp only [toDecimalFuel, if_pos hn] at hc
      exact hacc c hc
    · simp only [toDecimalFuel, if_neg hn] at hc
      refine ih (n / 10) (decDigit n :: acc) ?_ c hc
      intro x hx
      rcases List.mem_cons.mp hx with hx | hx
      · rw [hx]; exact decDigit_mem n
      · exact hacc x hx

/-- `toDecimal` renders only digit characters. -/
theorem toDecimal_mem (n : Nat) : ∀ c ∈ toDecimal n, c ∈ digitChars := by
  unfold toDecimal
  split
  · intro c hc
    simp only [List.mem_singleton] at hc
    rw [hc]; decide
  · exact toDecimalFuel_mem n n [] (by simp)

/-- Length bound: `n < 10 ^ w` has at most `w` rendered digits. -/
theorem toDecimalFuel_length (fuel : Nat) : ∀ (w n : Nat) (acc : List Char),
    n < 10 ^ w → (toDecimalFuel fuel n acc).length ≤ w + acc.length := by
  induction fuel with
  | zero => intro w n acc _; simp [toDecimalFuel]
  | succ fuel ih =>
    intro w n acc h
    by_cases hn : n = 0
    · simp [toDecimalFuel, hn]
    · simp only [toDecimalFuel, if_neg hn]
      have hw : 1 ≤ w := by
        rcases Nat.eq_zero_or_pos w with hw0 | hw0
        · subst hw0
          rw [pow_zero] at h
          omega
        · exact hw0
      have hdiv : n / 10 < 10 ^ (w - 1) := by
        have hpow : (10 : Nat) ^ (w - 1) * 10 = 10 ^ w := by
          rw [← pow_succ]
          congr 1
          omega
        rw [Nat.div_lt_iff_lt_mul (by norm_num)]
        omega
      have hrec := ih (w - 1) (n / 10) (decDigit n :: acc) hdiv
      simp only [List.length_cons] at hrec
      omega

/-- `zpad w n` has length exactly `w` whenever `n < 10 ^ w` (and `w ≥ 1`). -/
theorem zpad_length (w n : Nat) (hw : 1 ≤ w) (h : n < 10 ^ w) :
    (zpad w n).length = w := by
  have hlen : (toDecimal n).length ≤ w := by
    unfold toDecimal
    split
    · simpa using hw
    · simpa using toDecimalFuel_length n w n [] h
  unfold zpad
  rw [List.length_append, List.length_replicate]
  omega

/-- `zpad` produces only digit characters. -/
theorem zpad_mem (w n : Nat) : ∀ c ∈ zpad w n, c ∈ digitChars := by
  intro c hc
  unfold zpad at hc
  rcases List.mem_append.mp hc with hc | hc
  · rw [List.eq_of_mem_replicate hc]; decide
  · exact toDecimal_mem n c hc

/-- The timestamp consists only of digit characters. -/
theorem timestampOf_mem (d : PyDateTime) :
    ∀ c ∈ timestampOf d, c ∈ digitChars := by
  intro c hc
  unfold timestampOf sliceToMinus3 at hc
  have hc2 := List.take_subset _ _ hc
  unfold strftimeFull at hc2
  simp only [List.mem_append] at hc2
  rcases hc2 with ((((((h | h) | h) | h) | h) | h) | h) <;> exact zpad_mem _ _ c h

/-- `strftime('%Y%m%d%H%M%S%f')` renders 20 characters for in-range
datetime fields. -/
theorem strftimeFull_length (d : PyDateTime) (hy : d.year < 10000)
    (hmo : d.month < 100) (hdy : d.day < 100) (hh : d.hour < 100)
    (hmi : d.minute < 100) (hs : d.second < 100)
    (hus : d.microsecond < 1000000) :
    (strftimeFull d).length = 20 := by
  unfold strftimeFull
  rw [List.length_append, List.length_append, List.length_append,
    List.length_append, List.length_append, List.length_append,
    zpad_length 4 d.year (by omega)
      (by rw [show (10 : Nat) ^ 4 = 10000 from by norm_num]; exact hy),
    zpad_length 2 d.month (by omega)
      (by rw [show (10 : Nat) ^ 2 = 100 from by norm_num]; exact hmo),
    zpad_length 2 d.day (by omega)
      (by rw [show (10 : Nat) ^ 2 = 100 from by norm_num]; exact hdy),
    zpad_length 2 d.hour (by omega)
      (by rw [show (10 : Nat) ^ 2 = 100 from by norm_num]; exact hh),
    zpad_length 2 d.minute (by omega)
      (by rw [show (10 : Nat) ^ 2 = 100 from by norm_num]; exact hmi),
    zpad_length 2 d.second (by omega)
      (by rw [show (10 : Nat) ^ 2 = 100 from by norm_num]; exact hs),
    zpad_length 6 d.microsecond (by omega)
      (by rw [show (10 : Nat) ^ 6 = 1000000 from by norm_num]; exact hus)]

/-- The timestamp (`[:-3]` of the 20-character rendering) has exactly 17
characters. -/
theorem timestampOf_length (d : PyDateTime) (hy : d.year < 10000)
    (hmo : d.month < 100) (hdy : d.day < 100) (hh : d.hour < 100)
    (hmi : d.minute < 100) (hs : d.second < 100)
    (hus : d.microsecond < 1000000) :
    (timestampOf d).length = 17 := by
  unfold timestampOf sliceToMinus3
  rw [List.length_take, strftimeFull_length d hy hmo hdy hh hmi hs hus]
  omega

/-- A map that fixes every element of a list is the identity on it. -/
theorem map_eq_self_of_fixed {f : Char → Char} :
    ∀ l : List Char, (∀ c ∈ l, f c = c) → l.map f = l := by
  intro l h
  induction l with
  | nil => rfl
  | cons c cs ih =>
    rw [List.map_cons, h c (List.mem_cons_self c cs),
      ih fun x hx => h x (List.mem_cons_of_mem c hx)]

/-- `.lower().replace('_', '-')` fixes every digit character. -/
theorem lowerReplace_fixed_digit :
    ∀ c ∈ digitChars, lowerReplaceChar c = c := by decide

/-- `.lower().replace('_', '-')` fixes every suffix-alphabet character. -/
theorem lowerReplace_fixed_suffix :
    ∀ c ∈ suffixAlphabet, lowerReplaceChar c = c := by decide

/-- `.lower().replace('_', '-')` fixes the literal name prefix. -/
theorem lowerReplace_fixed_lit :
    ∀ c ∈ "my-app-s3-kv2-".data, lowerReplaceChar c = c := by decide

/-- Normal form of the generated name: for a suffix over the endpoint's
alphabet, `.lower().replace('_', '-')` is the identity, so the name is
literally prefix ++ timestamp ++ hyphen ++ suffix. -/
theorem name_data (d : PyDateTime) (r : String)
    (hr : ∀ c ∈ r.data, c ∈ suffixAlphabet) :
    (generate_unique_bucket_name d r).data =
      "my-app-s3-kv2-".data ++ (timestampOf d ++ ('-' :: r.data)) := by
  unfold generate_unique_bucket_name pyReplaceUnderscore
  dsimp only
  rw [List.map_map]
  rw [map_eq_self_of_fixed _ ?hfix]
  · simp [List.append_assoc]
  case hfix =>
    intro c hc
    show lowerReplaceChar c = c
    simp only [List.mem_append] at hc
    rcases hc with ((hc | hc) | hc) | hc
    · exact lowerReplace_fixed_lit c hc
    · exact lowerReplace_fixed_digit c (timestampOf_mem d c hc)
    · simp only [List.mem_singleton] at hc
      rw [hc]; decide
    · exact lowerReplace_fixed_suffix c (hr c hc)

/-- Lists of digit characters pass `allDigits`. -/
theorem allDigits_of_mem (l : List Char) (h : ∀ c ∈ l, c ∈ digitChars) :
    allDigits l = true := by
  unfold allDigits
  rw [List.all_eq_true]
  intro x hx
  have hd : ∀ c ∈ digitChars, Char.isDigit c = true := by decide
  exact hd x (h x hx)

/-- Lists over the suffix alphabet pass `allLowerAlnum`. -/
theorem allLowerAlnum_of_mem (l : List Char)
    (h : ∀ c ∈ l, c ∈ suffixAlphabet) : allLowerAlnum l = true := by
  unfold allLowerAlnum
  rw [List.all_eq_true]
  intro x hx
  have hd : ∀ c ∈ suffixAlphabet, (('a' ≤ c && c ≤ 'z') || c.isDigit) = true := by
    decide
  exact hd x (h x hx)

/-- A generated name for in-range clock fields and a valid 6-character
suffix matches the 17-digit pattern and has no uppercase or underscore. -/
theorem name_matches (d : PyDateTime) (r : String) (hy : d.year < 10000)
    (hmo : d.month < 100) (hdy : d.day < 100) (hh : d.hour < 100)
    (hmi : d.minute < 100) (hs : d.second < 100)
    (hus : d.microsecond < 1000000) (hrlen : r.length = 6)
    (hr : ∀ c ∈ r.data, c ∈ suffixAlphabet) :
    matchesPattern 17 (generate_unique_bucket_name d r) = true ∧
    noUpperNoUnderscore (generate_unique_bucket_name d r) = true := by
  have hts_len : (timestampOf d).length = 17 :=
    timestampOf_length d hy hmo hdy hh hmi hs hus
  have hrlen' : r.data.length = 6 := hrlen
  have h1 := name_data d r hr
  have e14 : ("my-app-s3-kv2-".data).length = 14 := by decide
  constructor
  · unfold matchesPattern
    dsimp only
    rw [h1]
    rw [← List.drop_drop 1 (14 + 17), ← List.drop_drop 17 14]
    rw [List.take_left' e14, List.drop_left' e14, List.take_left' hts_len,
      List.drop_left' hts_len]
    rw [allDigits_of_mem _ (timestampOf_mem d)]
    rw [allLowerAlnum_of_mem _ (by simpa using hr)]
    simp [List.length_append, hts_len, hrlen']
  · unfold noUpperNoUnderscore
    rw [h1]
    simp only [List.all_append]
    have hlit : ("my-app-s3-kv2-".data).all (fun c => !c.isUpper && decide (c ≠ '_')) = true := by
      decide
    have hts : (timestampOf d).all (fun c => !c.isUpper && decide (c ≠ '_')) = true := by
      rw [List.all_eq_true]
      intro x hx
      have hd : ∀ c ∈ digitChars, (!c.isUpper && decide (c ≠ '_')) = true := by decide
      exact hd x (timestampOf_mem d x hx)
    have hrr : r.data.all (fun c => !c.isUpper && decide (c ≠ '_')) = true := by
      rw [List.all_eq_true]
      intro x hx
      have hd : ∀ c ∈ suffixAlphabet, (!c.isUpper && decide (c ≠ '_')) = true := by
        decide
      exact hd x (hr x hx)
    rw [hlit, hts, List.all_cons, hrr]
    decide

/-- C4 counterexample: at a concrete clock reading and suffix the generated
name is `my-app-s3-kv2-20261012123456789-abc123`, whose timestamp part has 17
digits (`strftime('%Y%m%d%H%M%S%f')` yields 20 digits and `[:-3]` removes
three), so the name does not match the claimed
`my-app-s3-kv2-<14-digit-timestamp>-<6-char-alnum>` pattern even though the
suffix is a valid 6-character draw from the endpoint's alphabet. -/
theorem bucket_name_pattern14_counterexample :
    generate_unique_bucket_name ⟨2026, 10, 12, 12, 34, 56, 789123⟩ "abc123" =
      "my-app-s3-kv2-20261012123456789-abc123" ∧
    matchesPattern 14
      (generate_unique_bucket_name ⟨2026, 10, 12, 12, 34, 56, 789123⟩
        "abc123") = false ∧
    "abc123".length = 6 ∧
    (∀ c ∈ "abc123".data, c ∈ suffixAlphabet) :=
  ⟨by decide, by decide, by decide, by decide⟩

/-- C4 (amended): every name produced by the generate-unique-bucket-name
operation matches `my-app-s3-kv2-<17-digit-timestamp>-<6-char-alnum>` (the
timestamp is the 14-digit date-time rendering plus 3 digits of milliseconds,
so 17 digits, not 14), contains no uppercase or underscore characters, and
two calls in the same millisecond (indeed, the same clock reading) with
different random suffixes yield two distinct names. -/
theorem bucket_name_pattern17 (d : PyDateTime) (r1 r2 : String)
    (hy : d.year < 10000) (hmo : d.month < 100) (hdy : d.day < 100)
    (hh : d.hour < 100) (hmi : d.minute < 100) (hs : d.second < 100)
    (hus : d.microsecond < 1000000)
    (hr1len : r1.length = 6) (hr1 : ∀ c ∈ r1.data, c ∈ suffixAlphabet)
    (hr2len : r2.length = 6) (hr2 : ∀ c ∈ r2.data, c ∈ suffixAlphabet)
    (hne : r1 ≠ r2) :
    matchesPattern 17 (generate_unique_bucket_name d r1) = true ∧
    matchesPattern 17 (generate_unique_bucket_name d r2) = true ∧
    noUpperNoUnderscore (generate_unique_bucket_name d r1) = true ∧
    noUpperNoUnderscore (generate_unique_bucket_name d r2) = true ∧
    generate_unique_bucket_name d r1 ≠ generate_unique_bucket_name d r2 := by
  obtain ⟨hp1, hn1⟩ := name_matches d r1 hy hmo hdy hh hmi hs hus hr1len hr1
  obtain ⟨hp2, hn2⟩ := name_matches d r2 hy hmo hdy hh hmi hs hus hr2len hr2
  refine ⟨hp1, hp2, hn1, hn2, ?_⟩
  intro heq
  apply hne
  have hdata := congrArg String.data heq
  rw [name_data d r1 hr1, name_data d r2 hr2] at hdata
  have h2 := List.append_cancel_left hdata
  have h3 := List.append_cancel_left h2
  have h4 : r1.data = r2.data := by simpa using h3
  cases r1
  cases r2
  exact congrArg String.mk h4

/-- Witness for C4's amended theorem at a concrete clock reading and two
distinct suffixes. -/
theorem bucket_name_pattern17_witness :
    matchesPattern 17 (generate_unique_bucket_name
      ⟨2026, 10, 12, 12, 34, 56, 789123⟩ "abc123") = true ∧
    matchesPattern 17 (generate_unique_bucket_name
      ⟨2026, 10, 12, 12, 34, 56, 789123⟩ "xyz789") = true ∧
    noUpperNoUnderscore (generate_unique_bucket_name
      ⟨2026, 10, 12, 12, 34, 56, 789123⟩ "abc123") = true ∧
    noUpperNoUnderscore (generate_unique_bucket_name
      ⟨2026, 10, 12, 12, 34, 56, 789123⟩ "xyz789") = true ∧
    generate_unique_bucket_name ⟨2026, 10, 12, 12, 34, 56, 789123⟩ "abc123" ≠
      generate_unique_bucket_name ⟨2026, 10, 12, 12, 34, 56, 789123⟩ "xyz789" :=
  bucket_name_pattern17 ⟨2026, 10, 12, 12, 34, 56, 789123⟩ "abc123" "xyz789"
    (by decide) (by decide) (by decide) (by decide) (by decide) (by decide)
    (by decide) (by decide) (by decide) (by decide) (by decide) (by decide)

end MainApp

end AwsPoc
